import Mathlib

/-!
Verification development for the FlipCoin transfer core (src/main.py).

The embedding models the Supabase `users` table as an association list from
discord identifier to integer balance, and the `transactions` table as a list
of entries. The four functions `log_transaction`, `fallback_transfer`,
`rpc_atomic_send` (abstracted as an outcome parameter, since it is a remote
procedure outside this repository) and `transfer_money` are translated
directly from src/main.py lines 119-198.

Store operation semantics follow the Supabase query builder calls the code
makes:
- `select("balance").eq("discord_id", id)` returns all matching rows; the
  code reads `data[0]`, the first match (`getBalance`).
- `update({...}).eq("discord_id", id)` rewrites every matching row and is a
  silent no-op when none matches (`setBalance`).
- `update({...}).eq("discord_id", id).gte("balance", amount)` rewrites every
  row matching both filters; `dec.data` is empty exactly when no row matched
  (`condUpdate` returning `none`).

Effects in Python are exceptions; here `fallback_transfer` and
`transfer_money` return an `Except String (Int × Int)` paired with the state
after the call. `transfer_money` additionally returns a `Bool` recording
whether the fallback executor was invoked, which instruments the branch at
src/main.py line 195 without altering it.
-/

deriving instance DecidableEq for Except

namespace FlipCoin

/-- The `users` table restricted to the columns the transfer core touches:
each row is a discord identifier paired with its integer balance. -/
abbrev AccountStore := List (String × Int)

/-- First row matching the identifier, as the code reads `s.data[0].get("balance")`
from a `select` result; `none` when `data` is empty. -/
def getBalance : AccountStore → String → Option Int
  | [], _ => none
  | p :: rest, id => if p.1 = id then some p.2 else getBalance rest id

/-- Unconditional `update({"balance": v}).eq("discord_id", id)`: rewrites every
row whose identifier matches; matching no row changes nothing. -/
def setBalance (store : AccountStore) (id : String) (v : Int) : AccountStore :=
  store.map fun p => if p.1 = id then (p.1, v) else p

/-- The row filter `.eq("discord_id", id).gte("balance", amount)` of the
conditional decrement. -/
def rowMatches (id : String) (amount : Int) (p : String × Int) : Bool :=
  decide (p.1 = id) && decide (amount ≤ p.2)

/-- The effect of the filtered update: every row matching both filters gets
the new balance, every other row is untouched. -/
def updateRows (store : AccountStore) (id : String) (amount v : Int) :
    AccountStore :=
  store.map fun p => if rowMatches id amount p then (p.1, v) else p

/-- The conditional write of src/main.py line 174: sets the balance of every
row matching the identifier whose current balance is at least `amount`;
`none` models an empty `dec.data` (no row matched, update rejected). -/
def condUpdate (store : AccountStore) (id : String) (amount v : Int) :
    Option AccountStore :=
  if store.any (rowMatches id amount) then some (updateRows store id amount v)
  else none

/-- A row of the `transactions` table, with the columns inserted by
`log_transaction` (src/main.py lines 121-129). -/
structure Entry where
  from_id : String
  to_id : String
  amount : Int
  from_bal : Int
  to_bal : Int
  status : String
  reason : String
deriving Repr, DecidableEq

/-- The state the transfer core mutates: the `users` table and the
append-only `transactions` table. -/
structure BankState where
  users : AccountStore
  transactions : List Entry
deriving Repr, DecidableEq

/-- `log_transaction` (src/main.py lines 119-131): inserts one row with
status "complete". The insert sits in a try/except that swallows any
failure, modelled by the `logOk` flag: a failed insert leaves the
transactions table unchanged and raises nothing. -/
def log_transaction (logOk : Bool) (from_id to_id : String)
    (amount from_bal to_bal : Int) (reason : String) (st : BankState) :
    BankState :=
  if logOk then
    { st with transactions :=
        st.transactions ++ [⟨from_id, to_id, amount, from_bal, to_bal, "complete", reason⟩] }
  else st

/-- `fallback_transfer` (src/main.py lines 159-184), step for step: read the
sender balance (raise sender_not_found if absent), pre-check funds, read the
recipient balance (raise recipient_not_found if absent), conditionally write
the decremented sender balance (raise insufficient_funds if no row matched),
unconditionally write the incremented recipient balance, log, and return the
two new balances. -/
def fallback_transfer (logOk : Bool) (sender_id recipient_id : String)
    (amount : Int) (reason : String) (st : BankState) :
    Except String (Int × Int) × BankState :=
  match getBalance st.users sender_id with
  | none => (.error "sender_not_found", st)
  | some sender_bal =>
    if sender_bal < amount then (.error "insufficient_funds", st)
    else
      match getBalance st.users recipient_id with
      | none => (.error "recipient_not_found", st)
      | some recipient_bal =>
        let new_sender_bal := sender_bal - amount
        match condUpdate st.users sender_id amount new_sender_bal with
        | none => (.error "insufficient_funds", st)
        | some users1 =>
          let new_recipient_bal := recipient_bal + amount
          let users2 := setBalance users1 recipient_id new_recipient_bal
          let st2 := log_transaction logOk sender_id recipient_id amount
            new_sender_bal new_recipient_bal reason { st with users := users2 }
          (.ok (new_sender_bal, new_recipient_bal), st2)

/-- The first list is an initial segment of the second. -/
def charsStartWith : List Char → List Char → Bool
  | [], _ => true
  | _ :: _, [] => false
  | c :: cs, d :: ds => c = d && charsStartWith cs ds

/-- The first list occurs as a contiguous run inside the second. -/
def charsContain (needle : List Char) : List Char → Bool
  | [] => needle.isEmpty
  | d :: ds => charsStartWith needle (d :: ds) || charsContain needle ds

/-- Python substring test `needle in haystack`. -/
def containsSubstr (needle haystack : String) : Bool :=
  charsContain needle.data haystack.data

/-- Python `str.lower()` on the character list of a string. -/
def strToLower (s : String) : String :=
  ⟨s.data.map Char.toLower⟩

/-- The business-rejection classifier of src/main.py line 192, applied to
`str(e).lower()`: the markers are the substrings "insufficient",
"sender_not_found" and "recipient_not_found". -/
def isBusinessError (msg : String) : Bool :=
  let m := strToLower msg
  containsSubstr "insufficient" m || containsSubstr "sender_not_found" m ||
    containsSubstr "recipient_not_found" m

/-- `transfer_money` (src/main.py lines 187-198). The remote
`rpc_atomic_send` call is outside this repository, so its outcome is the
`atomic` parameter: a balance pair on success, the exception message on
failure. On a failure whose lowered message carries a business marker the
original exception is re-raised and the fallback is not invoked. Otherwise
`fallback_transfer` runs inside `try ... except Exception: raise`; a bare
`raise` in that handler re-raises the exception being handled, which is the
one the fallback raised, so the pair returned or exception surfaced is
exactly the result of the fallback call. The trailing `Bool` records whether
the fallback executor was invoked. -/
def transfer_money (atomic : Except String (Int × Int)) (logOk : Bool)
    (sender_id recipient_id : String) (amount : Int) (reason : String)
    (st : BankState) : Except String (Int × Int) × BankState × Bool :=
  match atomic with
  | .ok pair => (.ok pair, st, false)
  | .error e =>
    if isBusinessError e then (.error e, st, false)
    else
      match fallback_transfer logOk sender_id recipient_id amount reason st with
      | (res, st1) => (res, st1, true)

/-- One request to the transfer core: the outcome of the remote atomic call,
whether the log insert would succeed, and the four arguments of
`transfer_money`. -/
structure TransferOp where
  atomic : Except String (Int × Int)
  logOk : Bool
  sender_id : String
  recipient_id : String
  amount : Int
  reason : String

/-- Run a sequence of transfers through `transfer_money`, threading the
state. -/
def runTransfers (ops : List TransferOp) (st : BankState) : BankState :=
  ops.foldl
    (fun s op =>
      (transfer_money op.atomic op.logOk op.sender_id op.recipient_id
          op.amount op.reason s).2.1)
    st

/-- Every balance in the store is non-negative. -/
def allNonneg (store : AccountStore) : Bool :=
  store.all fun p => decide (0 ≤ p.2)

/-! ## Lemmas about the store primitives -/

theorem rowMatches_iff {id : String} {amount : Int} {p : String × Int} :
    rowMatches id amount p = true ↔ p.1 = id ∧ amount ≤ p.2 := by
  simp [rowMatches]

theorem getBalance_updateRows_self {store : AccountStore} {id : String}
    {amount v b : Int} (hb : getBalance store id = some b) (hle : amount ≤ b) :
    getBalance (updateRows store id amount v) id = some v := by
  induction store with
  | nil => simp [getBalance] at hb
  | cons p rest ih =>
    by_cases hid : p.1 = id
    · have hpb : p.2 = b := by simpa [getBalance, hid] using hb
      have hm : rowMatches id amount p = true :=
        rowMatches_iff.mpr ⟨hid, hpb ▸ hle⟩
      simp [updateRows, getBalance, hm, hid]
    · have hb' : getBalance rest id = some b := by
        simpa [getBalance, hid] using hb
      have hm : rowMatches id amount p = false := by
        simp [rowMatches, hid]
      simpa [updateRows, getBalance, hm, hid] using ih hb'

theorem updateRows_cons {p : String × Int} {rest : AccountStore}
    {id : String} {amount v : Int} :
    updateRows (p :: rest) id amount v =
      (if rowMatches id amount p then (p.1, v) else p) ::
        updateRows rest id amount v := by
  simp [updateRows]

theorem setBalance_cons {p : String × Int} {rest : AccountStore}
    {id : String} {v : Int} :
    setBalance (p :: rest) id v =
      (if p.1 = id then (p.1, v) else p) :: setBalance rest id v := by
  simp [setBalance]

theorem getBalance_updateRows_ne {store : AccountStore} {id j : String}
    {amount v : Int} (hne : j ≠ id) :
    getBalance (updateRows store id amount v) j = getBalance store j := by
  induction store with
  | nil => simp [updateRows, getBalance]
  | cons p rest ih =>
    rw [updateRows_cons]
    by_cases hm : rowMatches id amount p
    · have hid : p.1 = id := (rowMatches_iff.mp hm).1
      have hpj : p.1 ≠ j := fun h => hne (hid ▸ h ▸ rfl)
      simp [getBalance, hm, hpj, ih]
    · by_cases hpj : p.1 = j
      · simp [getBalance, hm, hpj]
      · simp [getBalance, hm, hpj, ih]

theorem anyMatch_of_getBalance {store : AccountStore} {id : String}
    {amount b : Int} (hb : getBalance store id = some b) (hle : amount ≤ b) :
    store.any (rowMatches id amount) = true := by
  induction store with
  | nil => simp [getBalance] at hb
  | cons p rest ih =>
    by_cases hid : p.1 = id
    · have hpb : p.2 = b := by simpa [getBalance, hid] using hb
      simp [List.any_cons, rowMatches_iff.mpr ⟨hid, hpb ▸ hle⟩]
    · have hb' : getBalance rest id = some b := by
        simpa [getBalance, hid] using hb
      simp [List.any_cons, ih hb']

theorem condUpdate_eq_some {store : AccountStore} {id : String}
    {amount v b : Int} (hb : getBalance store id = some b) (hle : amount ≤ b) :
    condUpdate store id amount v = some (updateRows store id amount v) := by
  simp [condUpdate, anyMatch_of_getBalance hb hle]

theorem getBalance_setBalance_self {store : AccountStore} {id : String}
    {v b : Int} (hb : getBalance store id = some b) :
    getBalance (setBalance store id v) id = some v := by
  induction store with
  | nil => simp [getBalance] at hb
  | cons p rest ih =>
    by_cases hid : p.1 = id
    · simp [setBalance, getBalance, hid]
    · have hb' : getBalance rest id = some b := by
        simpa [getBalance, hid] using hb
      simpa [setBalance, getBalance, hid] using ih hb'

theorem getBalance_setBalance_ne {store : AccountStore} {id j : String}
    {v : Int} (hne : j ≠ id) :
    getBalance (setBalance store id v) j = getBalance store j := by
  induction store with
  | nil => simp [setBalance, getBalance]
  | cons p rest ih =>
    rw [setBalance_cons]
    by_cases hid : p.1 = id
    · have hij : id ≠ j := hid ▸ fun h => hne (hid ▸ h ▸ rfl)
      simp [getBalance, hid, hij, ih]
    · by_cases hpj : p.1 = j
      · simp [getBalance, hid, hpj, hne]
      · simp [getBalance, hid, hpj, ih]

/-! ## The success shape of the fallback path -/

/-- When the sender exists with sufficient funds and the recipient exists,
`fallback_transfer` runs its success branch: it returns the two new
balances, applies the conditional decrement then the recipient write, and
logs when the insert succeeds. -/
theorem fallback_transfer_success {logOk : Bool} {sender_id recipient_id : String}
    {amount s r : Int} {reason : String} {st : BankState}
    (hs : getBalance st.users sender_id = some s)
    (hge : ¬s < amount)
    (hr : getBalance st.users recipient_id = some r) :
    fallback_transfer logOk sender_id recipient_id amount reason st =
      (.ok (s - amount, r + amount),
        log_transaction logOk sender_id recipient_id amount (s - amount)
          (r + amount) reason
          { st with
              users := setBalance
                (updateRows st.users sender_id amount (s - amount))
                recipient_id (r + amount) }) := by
  have hle : amount ≤ s := not_lt.mp hge
  have hu := condUpdate_eq_some (v := s - amount) hs hle
  simp [fallback_transfer, hs, hge, hr, hu]

/-- The log insert never touches the users table. -/
theorem log_transaction_users {logOk : Bool} {from_id to_id : String}
    {amount from_bal to_bal : Int} {reason : String} {st : BankState} :
    (log_transaction logOk from_id to_id amount from_bal to_bal reason st).users =
      st.users := by
  cases logOk <;> simp [log_transaction]

/-- Whatever branch runs, a failing fallback returns the state it was given. -/
theorem fallback_transfer_error_eq {logOk : Bool}
    {sender_id recipient_id : String} {amount : Int} {reason : String}
    {st : BankState} {e : String}
    (h : (fallback_transfer logOk sender_id recipient_id amount reason st).1 =
      .error e) :
    (fallback_transfer logOk sender_id recipient_id amount reason st).2 = st := by
  cases hs : getBalance st.users sender_id with
  | none => simp [fallback_transfer, hs]
  | some sb =>
    by_cases hlt : sb < amount
    · simp [fallback_transfer, hs, hlt]
    · cases hr : getBalance st.users recipient_id with
      | none => simp [fallback_transfer, hs, hlt, hr]
      | some rb =>
        cases hu : condUpdate st.users sender_id amount (sb - amount) with
        | none => simp [fallback_transfer, hs, hlt, hr, hu]
        | some users1 =>
          exfalso
          simp [fallback_transfer, hs, hlt, hr, hu] at h

/-- A fallback that reports success saw the sender with enough funds and the
recipient present, and returned the two freshly computed balances. -/
theorem fallback_transfer_ok_inv {logOk : Bool}
    {sender_id recipient_id : String} {amount : Int} {reason : String}
    {st : BankState} {p : Int × Int}
    (h : (fallback_transfer logOk sender_id recipient_id amount reason st).1 =
      .ok p) :
    ∃ s r, getBalance st.users sender_id = some s ∧ ¬s < amount ∧
      getBalance st.users recipient_id = some r ∧
      p = (s - amount, r + amount) := by
  cases hs : getBalance st.users sender_id with
  | none => simp [fallback_transfer, hs] at h
  | some sb =>
    by_cases hlt : sb < amount
    · simp [fallback_transfer, hs, hlt] at h
    · cases hr : getBalance st.users recipient_id with
      | none => simp [fallback_transfer, hs, hlt, hr] at h
      | some rb =>
        refine ⟨sb, rb, rfl, hlt, rfl, ?_⟩
        rw [fallback_transfer_success hs hlt hr] at h
        exact (Except.ok.inj h).symm

/-- Result and final stored balances of a fallback between distinct accounts
whose pre-checks pass. -/
theorem fallback_final_balances {logOk : Bool}
    {sender_id recipient_id : String} {amount s r : Int} {reason : String}
    {st : BankState}
    (hne : sender_id ≠ recipient_id)
    (hs : getBalance st.users sender_id = some s)
    (hr : getBalance st.users recipient_id = some r)
    (hle : amount ≤ s) :
    (fallback_transfer logOk sender_id recipient_id amount reason st).1 =
      .ok (s - amount, r + amount) ∧
    getBalance
        (fallback_transfer logOk sender_id recipient_id amount reason st).2.users
        sender_id = some (s - amount) ∧
    getBalance
        (fallback_transfer logOk sender_id recipient_id amount reason st).2.users
        recipient_id = some (r + amount) := by
  have hge : ¬s < amount := not_lt.mpr hle
  rw [fallback_transfer_success hs hge hr]
  refine ⟨rfl, ?_, ?_⟩
  · rw [log_transaction_users]
    rw [getBalance_setBalance_ne hne]
    exact getBalance_updateRows_self hs hle
  · rw [log_transaction_users]
    have hr1 : getBalance (updateRows st.users sender_id amount (s - amount))
        recipient_id = some r := by
      rw [getBalance_updateRows_ne (Ne.symm hne)]; exact hr
    exact getBalance_setBalance_self hr1

/-- C4: a fallback transfer with distinct existing accounts, positive amount
not exceeding the sender balance s, and recipient balance r, succeeds with
the pair (s - amount, r + amount), and the stored balances become exactly
s - amount and r + amount. -/
theorem fallback_transfer_happy_path {logOk : Bool}
    {sender_id recipient_id : String} {amount s r : Int} {reason : String}
    {st : BankState}
    (hne : sender_id ≠ recipient_id) (hpos : 0 < amount)
    (hs : getBalance st.users sender_id = some s)
    (hr : getBalance st.users recipient_id = some r)
    (hle : amount ≤ s) :
    (fallback_transfer logOk sender_id recipient_id amount reason st).1 =
      .ok (s - amount, r + amount) ∧
    getBalance
        (fallback_transfer logOk sender_id recipient_id amount reason st).2.users
        sender_id = some (s - amount) ∧
    getBalance
        (fallback_transfer logOk sender_id recipient_id amount reason st).2.users
        recipient_id = some (r + amount) :=
  fallback_final_balances hne hs hr hle

/-- C4 witness at a concrete state. -/
theorem fallback_transfer_happy_path_witness :
    ("a" : String) ≠ "b" ∧ (0 : Int) < 50 ∧
    getBalance [("a", 100), ("b", 7)] "a" = some 100 ∧
    getBalance [("a", 100), ("b", 7)] "b" = some 7 ∧ (50 : Int) ≤ 100 ∧
    ((fallback_transfer true "a" "b" 50 "r" ⟨[("a", 100), ("b", 7)], []⟩).1 =
      .ok (50, 57) ∧
    getBalance
        (fallback_transfer true "a" "b" 50 "r"
          ⟨[("a", 100), ("b", 7)], []⟩).2.users "a" = some 50 ∧
    getBalance
        (fallback_transfer true "a" "b" 50 "r"
          ⟨[("a", 100), ("b", 7)], []⟩).2.users "b" = some 57) :=
  ⟨by decide, by decide, by decide, by decide, by decide,
    @fallback_transfer_happy_path true "a" "b" 50 100 7 "r"
      ⟨[("a", 100), ("b", 7)], []⟩ (by decide) (by decide) (by decide)
      (by decide) (by decide)⟩

/-- C6: whenever the fallback executor fails (sender_not_found,
recipient_not_found, or insufficient_funds from the pre-check or the
rejected conditional decrement), neither the users table nor the
transactions table has changed. -/
theorem fallback_transfer_failure_no_mutation {logOk : Bool}
    {sender_id recipient_id : String} {amount : Int} {reason : String}
    {st : BankState} {e : String}
    (h : (fallback_transfer logOk sender_id recipient_id amount reason st).1 =
      .error e) :
    (fallback_transfer logOk sender_id recipient_id amount reason st).2.users =
      st.users ∧
    (fallback_transfer logOk sender_id recipient_id amount reason
        st).2.transactions = st.transactions := by
  rw [fallback_transfer_error_eq h]
  exact ⟨rfl, rfl⟩

/-- C6 witness: an insufficient-funds failure at a concrete state. -/
theorem fallback_transfer_failure_no_mutation_witness :
    (fallback_transfer true "a" "b" 50 "r" ⟨[("a", 10), ("b", 7)], []⟩).1 =
      .error "insufficient_funds" ∧
    ((fallback_transfer true "a" "b" 50 "r"
        ⟨[("a", 10), ("b", 7)], []⟩).2.users = [("a", 10), ("b", 7)] ∧
    (fallback_transfer true "a" "b" 50 "r"
        ⟨[("a", 10), ("b", 7)], []⟩).2.transactions = []) :=
  ⟨by decide,
    @fallback_transfer_failure_no_mutation true "a" "b" 50 "r"
      ⟨[("a", 10), ("b", 7)], []⟩ "insufficient_funds" (by decide)⟩

/-- C7: a successful fallback transfer whose log insert goes through appends
exactly one transactions row, carrying the returned balance pair and status
"complete". -/
theorem fallback_transfer_logs_exactly_once
    {sender_id recipient_id : String} {amount : Int} {reason : String}
    {st : BankState} {x y : Int}
    (h : (fallback_transfer true sender_id recipient_id amount reason st).1 =
      .ok (x, y)) :
    (fallback_transfer true sender_id recipient_id amount reason
        st).2.transactions =
      st.transactions ++
        [⟨sender_id, recipient_id, amount, x, y, "complete", reason⟩] := by
  obtain ⟨s, r, hs, hge, hr, hp⟩ := fallback_transfer_ok_inv h
  have hx : x = s - amount := congrArg Prod.fst hp
  have hy : y = r + amount := congrArg Prod.snd hp
  rw [fallback_transfer_success hs hge hr]
  simp [log_transaction, hx, hy]

/-- C7 witness at a concrete state. -/
theorem fallback_transfer_logs_exactly_once_witness :
    (fallback_transfer true "a" "b" 50 "r" ⟨[("a", 100), ("b", 7)], []⟩).1 =
      .ok (50, 57) ∧
    (fallback_transfer true "a" "b" 50 "r"
        ⟨[("a", 100), ("b", 7)], []⟩).2.transactions =
      [] ++ [⟨"a", "b", 50, 50, 57, "complete", "r"⟩] :=
  ⟨by decide,
    @fallback_transfer_logs_exactly_once "a" "b" 50 "r"
      ⟨[("a", 100), ("b", 7)], []⟩ 50 57 (by decide)⟩

/-- The fallback computes the same result and the same users table whether or
not the log insert succeeds, and with a failing insert the transactions
table is left as it was. -/
theorem fallback_transfer_logOk_irrelevant
    {sender_id recipient_id : String} {amount : Int} {reason : String}
    {st : BankState} :
    (fallback_transfer false sender_id recipient_id amount reason st).1 =
      (fallback_transfer true sender_id recipient_id amount reason st).1 ∧
    (fallback_transfer false sender_id recipient_id amount reason st).2.users =
      (fallback_transfer true sender_id recipient_id amount reason st).2.users ∧
    (fallback_transfer false sender_id recipient_id amount reason
        st).2.transactions = st.transactions := by
  cases hs : getBalance st.users sender_id with
  | none => simp [fallback_transfer, hs]
  | some sb =>
    by_cases hlt : sb < amount
    · simp [fallback_transfer, hs, hlt]
    · cases hr : getBalance st.users recipient_id with
      | none => simp [fallback_transfer, hs, hlt, hr]
      | some rb =>
        cases hu : condUpdate st.users sender_id amount (sb - amount) with
        | none => simp [fallback_transfer, hs, hlt, hr, hu]
        | some users1 => simp [fallback_transfer, hs, hlt, hr, hu, log_transaction]

/-- C8: when the fallback has performed both balance writes and succeeds, a
failure of the log insert neither rolls the balances back nor fails the
transfer: the same success pair is returned, the users table is the one the
successful-log run produces, and the transactions table is untouched. -/
theorem fallback_transfer_log_failure_swallowed
    {sender_id recipient_id : String} {amount : Int} {reason : String}
    {st : BankState} {p : Int × Int}
    (h : (fallback_transfer true sender_id recipient_id amount reason st).1 =
      .ok p) :
    (fallback_transfer false sender_id recipient_id amount reason st).1 =
      .ok p ∧
    (fallback_transfer false sender_id recipient_id amount reason st).2.users =
      (fallback_transfer true sender_id recipient_id amount reason st).2.users ∧
    (fallback_transfer false sender_id recipient_id amount reason
        st).2.transactions = st.transactions := by
  obtain ⟨h1, h2, h3⟩ :=
    @fallback_transfer_logOk_irrelevant sender_id recipient_id amount reason st
  exact ⟨h1.trans h, h2, h3⟩

/-- C8 witness at a concrete state. -/
theorem fallback_transfer_log_failure_swallowed_witness :
    (fallback_transfer true "a" "b" 50 "r" ⟨[("a", 100), ("b", 7)], []⟩).1 =
      .ok (50, 57) ∧
    ((fallback_transfer false "a" "b" 50 "r"
        ⟨[("a", 100), ("b", 7)], []⟩).1 = .ok (50, 57) ∧
    (fallback_transfer false "a" "b" 50 "r"
        ⟨[("a", 100), ("b", 7)], []⟩).2.users =
      (fallback_transfer true "a" "b" 50 "r"
        ⟨[("a", 100), ("b", 7)], []⟩).2.users ∧
    (fallback_transfer false "a" "b" 50 "r"
        ⟨[("a", 100), ("b", 7)], []⟩).2.transactions = []) :=
  ⟨by decide,
    @fallback_transfer_log_failure_swallowed "a" "b" 50 "r"
      ⟨[("a", 100), ("b", 7)], []⟩ (50, 57) (by decide)⟩

/-- C9: a successful fallback transfer between distinct accounts conserves
money: the final stored balances of sender and recipient sum to the sum of
their balances before the call. -/
theorem fallback_transfer_conservation {logOk : Bool}
    {sender_id recipient_id : String} {amount s r : Int} {reason : String}
    {st : BankState} {p : Int × Int}
    (hne : sender_id ≠ recipient_id)
    (hs : getBalance st.users sender_id = some s)
    (hr : getBalance st.users recipient_id = some r)
    (hok : (fallback_transfer logOk sender_id recipient_id amount reason st).1 =
      .ok p) :
    ∃ s1 r1,
      getBalance
          (fallback_transfer logOk sender_id recipient_id amount
            reason st).2.users sender_id = some s1 ∧
      getBalance
          (fallback_transfer logOk sender_id recipient_id amount
            reason st).2.users recipient_id = some r1 ∧
      s1 + r1 = s + r := by
  obtain ⟨s0, r0, hs0, hge0, hr0, _⟩ := fallback_transfer_ok_inv hok
  have hss : s = s0 := Option.some.inj (hs.symm.trans hs0)
  have hge : ¬s < amount := by rw [hss]; exact hge0
  obtain ⟨_, h2, h3⟩ :=
    @fallback_final_balances logOk sender_id recipient_id amount s r reason st
      hne hs hr (not_lt.mp hge)
  exact ⟨s - amount, r + amount, h2, h3, by ring⟩

/-- C9 witness at a concrete state. -/
theorem fallback_transfer_conservation_witness :
    ("a" : String) ≠ "b" ∧
    getBalance [("a", 100), ("b", 7)] "a" = some 100 ∧
    getBalance [("a", 100), ("b", 7)] "b" = some 7 ∧
    (fallback_transfer true "a" "b" 50 "r" ⟨[("a", 100), ("b", 7)], []⟩).1 =
      .ok (50, 57) ∧
    ∃ s1 r1,
      getBalance
          (fallback_transfer true "a" "b" 50 "r"
            ⟨[("a", 100), ("b", 7)], []⟩).2.users "a" = some s1 ∧
      getBalance
          (fallback_transfer true "a" "b" 50 "r"
            ⟨[("a", 100), ("b", 7)], []⟩).2.users "b" = some r1 ∧
      s1 + r1 = 100 + 7 :=
  ⟨by decide, by decide, by decide, by decide,
    @fallback_transfer_conservation true "a" "b" 50 100 7 "r"
      ⟨[("a", 100), ("b", 7)], []⟩ (50, 57) (by decide) (by decide)
      (by decide) (by decide)⟩

/-! ## The orchestrator branches -/

/-- On a non-business atomic failure the orchestrator runs the fallback and
returns exactly what the fallback produced, flagging that it was invoked. -/
theorem transfer_money_fallback_case {e : String} {logOk : Bool}
    {sender_id recipient_id : String} {amount : Int} {reason : String}
    {st : BankState} (hb : isBusinessError e = false) :
    transfer_money (.error e) logOk sender_id recipient_id amount reason st =
      ((fallback_transfer logOk sender_id recipient_id amount reason st).1,
        (fallback_transfer logOk sender_id recipient_id amount reason st).2,
        true) := by
  rcases hfb : fallback_transfer logOk sender_id recipient_id amount reason st
    with ⟨res, st1⟩
  simp [transfer_money, hb, hfb]

/-- C2 (amended): when the atomic path fails with a message whose lowered
text contains one of the markers actually tested by the code —
"insufficient", "sender_not_found", "recipient_not_found" — the fallback
executor is not invoked, the state is untouched and the original business
error is surfaced unchanged. -/
theorem transfer_money_business_no_fallback {e : String} {logOk : Bool}
    {sender_id recipient_id : String} {amount : Int} {reason : String}
    {st : BankState} (hb : isBusinessError e = true) :
    transfer_money (.error e) logOk sender_id recipient_id amount reason st =
      (.error e, st, false) := by
  simp [transfer_money, hb]

/-- C2 witness: an atomic insufficient-funds rejection is surfaced unchanged
with no fallback. -/
theorem transfer_money_business_no_fallback_witness :
    isBusinessError "insufficient funds" = true ∧
    transfer_money (.error "insufficient funds") true "a" "b" 5 "r"
        ⟨[("a", 10), ("b", 0)], []⟩ =
      (.error "insufficient funds", ⟨[("a", 10), ("b", 0)], []⟩, false) :=
  ⟨by decide,
    @transfer_money_business_no_fallback "insufficient funds" true "a" "b" 5 "r"
      ⟨[("a", 10), ("b", 0)], []⟩ (by decide)⟩

/-- C2 counterexample: the remote contract phrase "sender not found" (with
spaces, as the specification words the business markers) is not matched by
the code, which tests for the underscored "sender_not_found"; the fallback
executor is invoked and even commits the transfer instead of surfacing the
business rejection. -/
theorem transfer_money_spaced_marker_invokes_fallback :
    (transfer_money (.error "sender not found") true "a" "b" 5 "r"
        ⟨[("a", 10), ("b", 0)], []⟩).2.2 = true ∧
    (transfer_money (.error "sender not found") true "a" "b" 5 "r"
        ⟨[("a", 10), ("b", 0)], []⟩).1 = .ok (5, 5) := by
  decide

/-- C1: evaluated at a transfer where the atomic path fails with the
infrastructure error "network timeout" and the fallback then fails with
"sender_not_found", `transfer_money` surfaces the fallback error, not the
original atomic-path error: the bare `raise` in the inner handler at
src/main.py line 198 re-raises the exception being handled, which is the
fallback exception, contradicting the comment on line 197. -/
theorem transfer_money_surfaces_fallback_error :
    transfer_money (.error "network timeout") true "a" "b" 5 "r" ⟨[], []⟩ =
      (.error "sender_not_found", ⟨[], []⟩, true) := by
  decide

/-- C3: evaluated at a transfer request with the non-positive amount -5,
two existing accounts and an atomic-path infrastructure failure, the core
performs no validation: the fallback path runs, moves money in the reverse
direction (sender 10 becomes 15, recipient 7 becomes 2) and writes a
transaction log row, instead of rejecting before any execution path. -/
theorem transfer_money_nonpositive_amount_mutates :
    transfer_money (.error "network timeout") true "a" "b" (-5) "r"
        ⟨[("a", 10), ("b", 7)], []⟩ =
      (.ok (15, 2),
        ⟨[("a", 15), ("b", 2)], [⟨"a", "b", -5, 15, 2, "complete", "r"⟩]⟩,
        true) := by
  decide

example : isBusinessError "Insufficient funds" = true := by decide

example : isBusinessError "sender not found" = false := by decide

/-! ## Non-negativity -/

theorem allNonneg_cons {p : String × Int} {rest : AccountStore} :
    allNonneg (p :: rest) = (decide (0 ≤ p.2) && allNonneg rest) := by
  simp [allNonneg]

theorem getBalance_nonneg {store : AccountStore} {id : String} {b : Int}
    (hnn : allNonneg store = true) (hb : getBalance store id = some b) :
    0 ≤ b := by
  induction store with
  | nil => simp [getBalance] at hb
  | cons p rest ih =>
    rw [allNonneg_cons, Bool.and_eq_true, decide_eq_true_eq] at hnn
    by_cases hid : p.1 = id
    · have hpb : p.2 = b := by simpa [getBalance, hid] using hb
      exact hpb ▸ hnn.1
    · exact ih hnn.2 (by simpa [getBalance, hid] using hb)

theorem allNonneg_updateRows {store : AccountStore} {id : String}
    {amount v : Int} (hnn : allNonneg store = true) (hv : 0 ≤ v) :
    allNonneg (updateRows store id amount v) = true := by
  induction store with
  | nil => simp [updateRows, allNonneg]
  | cons p rest ih =>
    rw [allNonneg_cons, Bool.and_eq_true, decide_eq_true_eq] at hnn
    rw [updateRows_cons, allNonneg_cons, Bool.and_eq_true, decide_eq_true_eq]
    by_cases hm : rowMatches id amount p
    · exact ⟨by simpa [hm] using hv, ih hnn.2⟩
    · exact ⟨by simpa [hm] using hnn.1, ih hnn.2⟩

theorem allNonneg_setBalance {store : AccountStore} {id : String} {v : Int}
    (hnn : allNonneg store = true) (hv : 0 ≤ v) :
    allNonneg (setBalance store id v) = true := by
  induction store with
  | nil => simp [setBalance, allNonneg]
  | cons p rest ih =>
    rw [allNonneg_cons, Bool.and_eq_true, decide_eq_true_eq] at hnn
    rw [setBalance_cons, allNonneg_cons, Bool.and_eq_true, decide_eq_true_eq]
    by_cases hid : p.1 = id
    · exact ⟨by simpa [hid] using hv, ih hnn.2⟩
    · exact ⟨by simpa [hid] using hnn.1, ih hnn.2⟩

/-- A fallback transfer with positive amount keeps every stored balance
non-negative: the conditional decrement only fires when the read sender
balance covers the amount, and the recipient write adds a positive amount
to a non-negative balance. -/
theorem fallback_transfer_preserves_nonneg {logOk : Bool}
    {sender_id recipient_id : String} {amount : Int} {reason : String}
    {st : BankState} (hpos : 0 < amount) (hnn : allNonneg st.users = true) :
    allNonneg
        (fallback_transfer logOk sender_id recipient_id amount
          reason st).2.users = true := by
  cases hs : getBalance st.users sender_id with
  | none => simpa [fallback_transfer, hs] using hnn
  | some sb =>
    by_cases hlt : sb < amount
    · simpa [fallback_transfer, hs, hlt] using hnn
    · cases hr : getBalance st.users recipient_id with
      | none => simpa [fallback_transfer, hs, hlt, hr] using hnn
      | some rb =>
        rw [fallback_transfer_success hs hlt hr]
        have hsb : 0 ≤ sb - amount := by
          have := not_lt.mp hlt; omega
        have hrb : 0 ≤ rb + amount := by
          have := getBalance_nonneg hnn hr; omega
        calc allNonneg (log_transaction logOk sender_id recipient_id amount
              (sb - amount) (rb + amount) reason
              { st with
                  users := setBalance
                    (updateRows st.users sender_id amount (sb - amount))
                    recipient_id (rb + amount) }).users
            = allNonneg (setBalance
                (updateRows st.users sender_id amount (sb - amount))
                recipient_id (rb + amount)) := by rw [log_transaction_users]
          _ = true := allNonneg_setBalance (allNonneg_updateRows hnn hsb) hrb

/-- A transfer through the orchestrator with positive amount keeps every
stored balance non-negative, whichever branch runs. -/
theorem transfer_money_preserves_nonneg {atomic : Except String (Int × Int)}
    {logOk : Bool} {sender_id recipient_id : String} {amount : Int}
    {reason : String} {st : BankState}
    (hpos : 0 < amount) (hnn : allNonneg st.users = true) :
    allNonneg
        (transfer_money atomic logOk sender_id recipient_id amount reason
          st).2.1.users = true := by
  cases atomic with
  | ok p => simpa [transfer_money] using hnn
  | error e =>
    by_cases hb : isBusinessError e
    · simpa [transfer_money, hb] using hnn
    · rw [transfer_money_fallback_case (Bool.not_eq_true _ ▸ hb)]
      exact fallback_transfer_preserves_nonneg hpos hnn

/-- C5 (amended): for every sequence of transfers with positive amounts run
through the core, starting from a users table whose balances are all
non-negative, every balance stays non-negative. -/
theorem runTransfers_preserves_nonneg {ops : List TransferOp} {st : BankState}
    (hpos : ∀ op ∈ ops, 0 < op.amount) (hnn : allNonneg st.users = true) :
    allNonneg (runTransfers ops st).users = true := by
  induction ops generalizing st with
  | nil => simpa [runTransfers] using hnn
  | cons op rest ih =>
    have hstep : allNonneg
        (transfer_money op.atomic op.logOk op.sender_id op.recipient_id
          op.amount op.reason st).2.1.users = true :=
      transfer_money_preserves_nonneg (hpos op (List.mem_cons_self op rest)) hnn
    have hrun : runTransfers (op :: rest) st =
        runTransfers rest
          (transfer_money op.atomic op.logOk op.sender_id op.recipient_id
            op.amount op.reason st).2.1 := by
      simp [runTransfers]
    rw [hrun]
    exact ih (fun o ho => hpos o (List.mem_cons_of_mem op ho)) hstep

/-- C5 witness: two positive transfers from a non-negative state. -/
theorem runTransfers_preserves_nonneg_witness :
    (∀ op ∈ ([⟨.error "network timeout", true, "a", "b", 4, "r"⟩,
        ⟨.error "network timeout", true, "b", "a", 2, "r"⟩] : List TransferOp),
      0 < op.amount) ∧
    allNonneg (⟨[("a", 10), ("b", 0)], []⟩ : BankState).users = true ∧
    allNonneg (runTransfers
        [⟨.error "network timeout", true, "a", "b", 4, "r"⟩,
          ⟨.error "network timeout", true, "b", "a", 2, "r"⟩]
        ⟨[("a", 10), ("b", 0)], []⟩).users = true :=
  ⟨by decide, by decide,
    @runTransfers_preserves_nonneg
      [⟨.error "network timeout", true, "a", "b", 4, "r"⟩,
        ⟨.error "network timeout", true, "b", "a", 2, "r"⟩]
      ⟨[("a", 10), ("b", 0)], []⟩ (by decide) (by decide)⟩

/-- C5 counterexample: the core accepts a transfer with the negative amount
-5; run on a state whose balances are all non-negative, it leaves the
recipient with the committed balance -5. -/
theorem runTransfers_negative_balance :
    allNonneg (⟨[("a", 10), ("b", 0)], []⟩ : BankState).users = true ∧
    allNonneg (runTransfers
        [⟨.error "network timeout", true, "a", "b", -5, "r"⟩]
        ⟨[("a", 10), ("b", 0)], []⟩).users = false ∧
    getBalance (runTransfers
        [⟨.error "network timeout", true, "a", "b", -5, "r"⟩]
        ⟨[("a", 10), ("b", 0)], []⟩).users "b" = some (-5) := by
  decide

/-! ## Self-transfer -/

/-- Total money in the users table. -/
def sumBalances (store : AccountStore) : Int :=
  (store.map Prod.snd).sum

theorem keys_updateRows {store : AccountStore} {id : String} {amount v : Int} :
    (updateRows store id amount v).map Prod.fst = store.map Prod.fst := by
  induction store with
  | nil => simp [updateRows]
  | cons p rest ih =>
    rw [updateRows_cons]
    by_cases hm : rowMatches id amount p <;> simp [hm, ih]

theorem updateRows_eq_self {store : AccountStore} {id : String}
    {amount v : Int} (h : id ∉ store.map Prod.fst) :
    updateRows store id amount v = store := by
  induction store with
  | nil => rfl
  | cons p rest ih =>
    rw [List.map_cons, List.mem_cons] at h
    push_neg at h
    have hid : ¬p.1 = id := fun hq => h.1 hq.symm
    have hm : rowMatches id amount p = false := by simp [rowMatches, hid]
    rw [updateRows_cons, hm]
    simp [ih h.2]

theorem setBalance_eq_self {store : AccountStore} {id : String} {v : Int}
    (h : id ∉ store.map Prod.fst) : setBalance store id v = store := by
  induction store with
  | nil => rfl
  | cons p rest ih =>
    rw [List.map_cons, List.mem_cons] at h
    push_neg at h
    have hid : ¬p.1 = id := fun hq => h.1 hq.symm
    rw [setBalance_cons]
    simp [hid, ih h.2]

theorem sumBalances_cons {p : String × Int} {rest : AccountStore} :
    sumBalances (p :: rest) = p.2 + sumBalances rest := by
  simp [sumBalances]

theorem sumBalances_setBalance {store : AccountStore} {id : String}
    {v b : Int} (hnd : (store.map Prod.fst).Nodup)
    (hb : getBalance store id = some b) :
    sumBalances (setBalance store id v) = sumBalances store - b + v := by
  induction store with
  | nil => simp [getBalance] at hb
  | cons p rest ih =>
    rw [List.map_cons, List.nodup_cons] at hnd
    rw [setBalance_cons]
    by_cases hid : p.1 = id
    · have hpb : p.2 = b := by simpa [getBalance, hid] using hb
      have hnotin : id ∉ rest.map Prod.fst := hid ▸ hnd.1
      rw [if_pos hid, setBalance_eq_self hnotin, sumBalances_cons,
        sumBalances_cons, hpb]
      ring
    · have hb' : getBalance rest id = some b := by
        simpa [getBalance, hid] using hb
      rw [if_neg hid, sumBalances_cons, sumBalances_cons, ih hnd.2 hb']
      ring

theorem sumBalances_updateRows {store : AccountStore} {id : String}
    {amount v b : Int} (hnd : (store.map Prod.fst).Nodup)
    (hb : getBalance store id = some b) (hle : amount ≤ b) :
    sumBalances (updateRows store id amount v) = sumBalances store - b + v := by
  induction store with
  | nil => simp [getBalance] at hb
  | cons p rest ih =>
    rw [List.map_cons, List.nodup_cons] at hnd
    rw [updateRows_cons]
    by_cases hid : p.1 = id
    · have hpb : p.2 = b := by simpa [getBalance, hid] using hb
      have hm : rowMatches id amount p = true :=
        rowMatches_iff.mpr ⟨hid, hpb ▸ hle⟩
      have hnotin : id ∉ rest.map Prod.fst := hid ▸ hnd.1
      rw [hm, if_pos rfl, updateRows_eq_self hnotin, sumBalances_cons,
        sumBalances_cons, hpb]
      ring
    · have hb' : getBalance rest id = some b := by
        simpa [getBalance, hid] using hb
      have hm : rowMatches id amount p = false := by simp [rowMatches, hid]
      rw [hm]
      simp only [Bool.false_eq_true, if_false]
      rw [sumBalances_cons, sumBalances_cons, ih hnd.2 hb']
      ring

/-- C10: a fallback self-transfer on an existing account with balance s,
where 0 < amount ≤ s and table keys are unique, reports success with the
pair (s - amount, s + amount); the recipient increment is computed from the
balance read before the decrement, so the stored balance ends at
s + amount, the decrement is overwritten, and the total money in the table
grows by the amount. -/
theorem fallback_transfer_self_creates_money {logOk : Bool} {id : String}
    {amount s : Int} {reason : String} {st : BankState}
    (hs : getBalance st.users id = some s) (hpos : 0 < amount)
    (hle : amount ≤ s) (hnd : (st.users.map Prod.fst).Nodup) :
    (fallback_transfer logOk id id amount reason st).1 =
      .ok (s - amount, s + amount) ∧
    getBalance (fallback_transfer logOk id id amount reason st).2.users id =
      some (s + amount) ∧
    sumBalances (fallback_transfer logOk id id amount reason st).2.users =
      sumBalances st.users + amount := by
  have hge : ¬s < amount := not_lt.mpr hle
  rw [fallback_transfer_success hs hge hs]
  have h1 : getBalance (updateRows st.users id amount (s - amount)) id =
      some (s - amount) := getBalance_updateRows_self hs hle
  refine ⟨rfl, ?_, ?_⟩
  · rw [log_transaction_users]
    exact getBalance_setBalance_self h1
  · rw [log_transaction_users]
    have hnd1 : ((updateRows st.users id amount (s - amount)).map
        Prod.fst).Nodup := by
      rw [keys_updateRows]; exact hnd
    rw [sumBalances_setBalance hnd1 h1, sumBalances_updateRows hnd hs hle]
    ring

/-- C10 witness: a self-transfer of 30 on an account holding 100 ends with
the stored balance 130 and total money grown by 30. -/
theorem fallback_transfer_self_creates_money_witness :
    getBalance [("a", 100), ("b", 7)] "a" = some 100 ∧ (0 : Int) < 30 ∧
    (30 : Int) ≤ 100 ∧
    (([("a", 100), ("b", 7)] : AccountStore).map Prod.fst).Nodup ∧
    ((fallback_transfer true "a" "a" 30 "r" ⟨[("a", 100), ("b", 7)], []⟩).1 =
      .ok (70, 130) ∧
    getBalance
        (fallback_transfer true "a" "a" 30 "r"
          ⟨[("a", 100), ("b", 7)], []⟩).2.users "a" = some 130 ∧
    sumBalances
        (fallback_transfer true "a" "a" 30 "r"
          ⟨[("a", 100), ("b", 7)], []⟩).2.users =
      sumBalances [("a", 100), ("b", 7)] + 30) :=
  ⟨by decide, by decide, by decide, by decide,
    @fallback_transfer_self_creates_money true "a" 30 100 "r"
      ⟨[("a", 100), ("b", 7)], []⟩ (by decide) (by decide) (by decide)
      (by decide)⟩

end FlipCoin
